import Mathlib

/-!
# CRI-O profiling handlers: `profileCrioViaUnixSocket` and `profileCrioViaHTTP`

Shallow embedding of `pkg/handlers/crio_profiling_handler.go`.

The two Go functions talk to the outside through four channels: the wall clock
(`time.Now`), the injected transport (`HTTPClient.Get`, `CmdWrapper.CmdExec`), the disk
(`writeToFile`) and the logger (`hlog`).  Each channel is made explicit:

* the clock is a sequence of readings `now : Nat → Time`; the `World` counts how many
  readings were taken, so the k-th call of `time.Now()` returns `now k`;
* the transports are records of functions giving the outcome of the call;
* the disk is a finite-map-like function from paths to contents together with a fault
  description saying where the medium refuses to create or to write;
* the number of `Close` calls made on the response body and the log lines are fields of
  the `World`.

A Go `error` is represented by its message (`err.Error()`), `nil` by `none`.
A run-time panic (nil pointer dereference) is the result `none`.
-/

namespace handlers

/-! ## Data model -/

/-- Instants of `time.Time`, as a number of clock units; the zero value is `0`. -/
abbrev Time := Int

/-- Raw bytes of a response body or of a file. -/
abbrev Bytes := List (Fin 256)

/-- Sequence of successive readings of the clock: the k-th `time.Now()` returns `now k`. -/
abbrev Clock := Nat → Time

/-- Modelled from the spec: the constant `runs.CrioRun` (package `runs` is not part of the
sources at hand); "a single constant tag" identifying the profiled subsystem. -/
def CrioRun : String := "CrioRun"

/-- Modelled from the spec: the record `runs.ProfilingRun` (package `runs` is not part of the
sources at hand), with the fields the handlers assign: kind, begin/end timestamps, success
flag and error text.  Defaults are the Go zero values. -/
structure ProfilingRun where
  Type_ : String := ""
  BeginTime : Time := 0
  EndTime : Time := 0
  Successful : Bool := false
  Error : String := ""
deriving DecidableEq, Repr

/-- Where the storage medium refuses service for one path. -/
inductive Fault where
  /-- The file cannot be created: nothing changes on disk. -/
  | create (cause : String)
  /-- The medium takes `after` bytes and fails on the next one. -/
  | write (after : Nat) (cause : String)
deriving DecidableEq, Repr

/-- The disk: contents by path, and the faults of the medium by path. -/
structure Disk where
  files : String → Option Bytes
  fault : String → Option Fault

/-- File at `path` created or truncated and holding `content`. -/
def Disk.store (d : Disk) (path : String) (content : Bytes) : Disk :=
  { d with files := fun p => if p = path then some content else d.files p }

/-- Mutable surroundings of one invocation. -/
structure World where
  /-- Number of clock readings taken so far. -/
  reads : Nat
  disk : Disk
  /-- Number of `Close` calls made on the response body. -/
  closes : Nat
  /-- Lines handed to the logger, oldest first. -/
  log : List String

/-- Effect of `time.Now()` on the world: one more reading taken. -/
def World.tick (w : World) : World := { w with reads := w.reads + 1 }

/-- Effect of `hlog.Info`/`hlog.Infof`. -/
def World.info (w : World) (line : String) : World := { w with log := w.log ++ [line] }

/-- Effect of `resp.Body.Close()`. -/
def World.closeBody (w : World) : World := { w with closes := w.closes + 1 }

/-- Reader side of `resp.Body`: the bytes it delivers, then end of stream (`err = none`) or a
read error. -/
structure Body where
  data : Bytes
  err : Option String
deriving DecidableEq, Repr

/-- The part of `http.Response` the handler looks at.  `Body` is an interface value: `none` is
the nil interface, which a client other than net/http's own may hand back. -/
structure Response where
  StatusCode : Int
  Body : Option Body
deriving DecidableEq, Repr

/-- The interface `HTTPClient`: `Get(url)` hands back a response pointer (`none` is `nil`) and
an error (`none` is `nil`), independently of each other. -/
structure HTTPClient where
  Get : String → Option Response × Option String

/-- The interface `connectors.CmdWrapper` (declared outside the sources at hand), used through
`Prepare(name, args)` followed by `CmdExec()`: the captured output, the error, and what the
external process did to the disk. -/
structure CmdWrapper where
  CmdExec : String → List String → Disk → (String × Option String) × Disk

/-- The fields of `Handlers` the two functions read: the directory the profiles are stored in
and the path of the CRI-O unix socket. -/
structure Handlers where
  outputDir : String
  CrioUnixSocket : String
deriving DecidableEq, Repr

/-! ## Constants and library helpers -/

def defaultCrioProfileHost : String := "localhost"

def defaultCrioProfilePort : String := "6060"

def crioProfilePath : String := "debug/pprof/profile"

/-- Status code `http.StatusOK`. -/
def StatusOK : Int := 200

/-- The fields of `url.URL` set by the handlers. -/
structure URL where
  Scheme : String
  Host : String
  Path : String
deriving DecidableEq, Repr

/-- Function `net.JoinHostPort`: the host goes between brackets when it holds a colon or a percent
sign. -/
def JoinHostPort (host port : String) : String :=
  if ':' ∈ host.data ∨ '%' ∈ host.data then "[" ++ host ++ "]:" ++ port
  else host ++ ":" ++ port

/-- Method `(*url.URL).String` for a URL with a scheme and a host whose parts need no escaping: a
slash is put between host and a path that does not start with one. -/
def URL.String (u : URL) : String :=
  u.Scheme ++ "://" ++ u.Host ++
    (if u.Path ≠ "" ∧ u.Path.data.head? ≠ some '/' then "/" else "") ++ u.Path

/-- Decimal rendering of an integer, `fmt.Sprintf("%d", n)`. -/
def formatInt (n : Int) : String := toString n

/-- Value of a decimal digit character, `none` for any other character. -/
def digitValue (c : Char) : Option Nat :=
  if '0'.toNat ≤ c.toNat ∧ c.toNat ≤ '9'.toNat then some (c.toNat - '0'.toNat) else none

/-- Reads a run of decimal digits, most significant first, onto the value read so far. -/
def readDigitsFrom (acc : Nat) : List Char → Option Nat
  | [] => some acc
  | c :: cs =>
    match digitValue c with
    | some d => readDigitsFrom (acc * 10 + d) cs
    | none => none

/-- Reads a natural number written in decimal: at least one digit, digits only, and no leading
zero except for the number zero itself. -/
def readNat (cs : List Char) : Option Nat :=
  if cs = [] then none
  else if cs.head? = some '0' ∧ cs.length ≠ 1 then none
  else readDigitsFrom 0 cs

/-- Reads an integer written in decimal: a natural number, or a minus sign followed by a
positive natural number.  Any other text is refused. -/
def readDecimal (s : String) : Option Int :=
  if s.data.head? = some '-' then
    match readNat s.data.tail with
    | some n => if n = 0 then none else some (-(n : Int))
    | none => none
  else (readNat s.data).map Int.ofNat

/-! ## Helpers of the repository outside the sources at hand -/

/-- Modelled from the spec: the method `crioPprofOutputFilePath` of `Handlers` (its body is not
part of the sources at hand).  "Output file naming convention:
`<outputDir>/crio-<runID>.pprof`", the same string the test reads back
(`dir + "/crio-" + id + ".pprof"`). -/
def crioPprofOutputFilePath (h : Handlers) (uid : String) : String :=
  h.outputDir ++ "/crio-" ++ uid ++ ".pprof"

/-- Text of the error of the file sink: "a single wrapped error identifying the target path",
worded as the test expects it (`failed to write to file .+?: fake error`). -/
def sinkError (fileName cause : String) : String :=
  "failed to write to file " ++ fileName ++ ": " ++ cause

/-- Signature of the file sink: reader, target path, disk before; error and disk after. -/
abbrev FileSink := Body → String → Disk → Option String × Disk

/-- Modelled from the spec: the function `writeToFile` (its body is not part of the sources at
hand).  "Drain the stream fully into a newly created (or truncated) file at that path,
propagating any read or write error as a single wrapped error identifying the target path";
"partial content may remain on disk".

The file is created first; the bytes the reader delivers are written in order; the first
failure, of the medium or of the reader, ends the transfer and is reported. -/
def writeToFile : FileSink := fun reader fileName d =>
  match d.fault fileName with
  | some (Fault.create cause) => (some (sinkError fileName cause), d)
  | some (Fault.write n cause) =>
      if n < reader.data.length then
        (some (sinkError fileName cause), d.store fileName (reader.data.take n))
      else
        (reader.err.map (sinkError fileName), d.store fileName reader.data)
  | none => (reader.err.map (sinkError fileName), d.store fileName reader.data)

/-! ## The handlers -/

/-- Source: `func (h *Handlers) profileCrioViaUnixSocket(uid string, cmd connectors.CmdWrapper)
runs.ProfilingRun`. -/
def profileCrioViaUnixSocket (now : Clock) (h : Handlers) (uid : String) (cmd : CmdWrapper)
    (w : World) : ProfilingRun × World :=
  let u : URL := { Scheme := "http", Host := defaultCrioProfileHost, Path := crioProfilePath }
  -- cmd.Prepare("curl", ...)
  let name := "curl"
  let args := ["--unix-socket", h.CrioUnixSocket, u.String, "--output",
    crioPprofOutputFilePath h uid]
  let run : ProfilingRun := { Type_ := CrioRun, BeginTime := now w.reads }
  let w1 := w.tick.info
    ("Requesting CRIO profiling from " ++ u.String ++ " via socket " ++ h.CrioUnixSocket)
  let out := cmd.CmdExec name args w1.disk
  let w2 : World := { w1 with disk := out.2 }
  match out.1 with
  | (output, some _) =>
      ({ run with
          EndTime := now w2.reads
          Error := "error sending profiling request to crio: " ++ output }, w2.tick)
  | (_, none) =>
      ({ run with EndTime := now w2.reads, Successful := true },
        w2.tick.info "CRIO profiling request via unix socket successfully finished")

/-- Source: `func (h *Handlers) profileCrioViaHTTP(uid string, client HTTPClient)
runs.ProfilingRun`.  The sink is a parameter; the repository binds it to `writeToFile`.
`none` is the run-time panic at `defer resp.Body.Close()`: the nil pointer dereference when
`Get` hands back neither a response nor an error, and the method call on a nil interface when
the response has no body. -/
def profileCrioViaHTTP (now : Clock) (sink : FileSink) (h : Handlers) (uid : String)
    (client : HTTPClient) (w : World) : Option (ProfilingRun × World) :=
  let u : URL := {
    Scheme := "http"
    Host := JoinHostPort defaultCrioProfileHost defaultCrioProfilePort
    Path := crioProfilePath }
  let run : ProfilingRun := { Type_ := CrioRun, BeginTime := now w.reads }
  let w1 := w.tick.info ("Requesting CRIO profiling from " ++ u.String)
  match client.Get u.String with
  | (_, some err) =>
      some ({ run with
          EndTime := now w1.reads
          Error := "failed sending profiling request to crio: " ++ err }, w1.tick)
  | (none, none) => none
  | (some resp, none) =>
      -- defer resp.Body.Close(): every return below closes the body last
      match resp.Body with
      | none => none
      | some body =>
        if resp.StatusCode ≠ StatusOK then
          some ({ run with
              EndTime := now w1.reads
              Error := "error status code received from crio: " ++ formatInt resp.StatusCode },
            w1.tick.closeBody)
        else
          let written := sink body (crioPprofOutputFilePath h uid) w1.disk
          let w2 : World := { w1 with disk := written.2 }
          match written.1 with
          | some err =>
              some ({ run with
                  EndTime := now w2.reads
                  Error := "failed writing crio profiling data into file: " ++ err },
                w2.tick.closeBody)
          | none =>
              some ({ run with EndTime := now w2.reads, Successful := true },
                (w2.tick.info
                  "CRIO profiling request via HTTP successfully finished").closeBody)

/-- The medium takes `n` bytes for `path` without failing: the file can be created and no
write fault lies within the first `n` bytes. -/
def Disk.takes (d : Disk) (path : String) (n : Nat) : Bool :=
  match d.fault path with
  | none => true
  | some (Fault.create _) => false
  | some (Fault.write k _) => decide (n ≤ k)

/-- The URL requested over the network, `u.String()` in `profileCrioViaHTTP`. -/
def httpURL : String := "http://localhost:6060/debug/pprof/profile"

/-- The URL handed to curl for the unix socket, `u.String()` in `profileCrioViaUnixSocket`. -/
def socketURL : String := "http://localhost/debug/pprof/profile"

/-- The arguments `profileCrioViaUnixSocket` prepares curl with. -/
def curlArgs (h : Handlers) (uid : String) : List String :=
  ["--unix-socket", h.CrioUnixSocket, socketURL, "--output", crioPprofOutputFilePath h uid]

/-! ## Test doubles of `crio_profiling_handler_test.go` -/

/-- The test double `fakeHTTPClient`: `Get` returns the stored pair whatever the URL. -/
def fakeHTTPClient (response : Option Response) (err : Option String) : HTTPClient :=
  { Get := fun _ => (response, err) }

/-- The test helper `newFakeResponse`: with an error the body's `WriteTo` delivers nothing and
fails, without one it delivers `body`. -/
def newFakeResponse (body : Bytes) (err : Option String) (statusCode : Int) : Response :=
  { StatusCode := statusCode
    Body := some { data := if err.isSome then [] else body, err := err } }

/-- The bytes of the Go string "pprof data". -/
def pprofData : Bytes := [112, 112, 114, 111, 102, 32, 100, 97, 116, 97]

/-- A disk with no file and no fault. -/
def emptyDisk : Disk := { files := fun _ => none, fault := fun _ => none }

/-- A world at the start of a test: no reading taken, empty disk, nothing closed or logged. -/
def world0 : World := { reads := 0, disk := emptyDisk, closes := 0, log := [] }

/-- A clock ticking one unit per reading. -/
def stepClock : Clock := fun k => (k : Int)

/-- The handlers of the HTTP test, with output directory `dir`. -/
def testHandlers (dir : String) : Handlers :=
  { outputDir := dir, CrioUnixSocket := "/tmp/fakeSocket" }

/-- Test case "Nominal": status 200, body "pprof data", no error. -/
def nominalClient : HTTPClient :=
  fakeHTTPClient (some (newFakeResponse pprofData none 200)) none

/-- Test case "HTTP query error": a response and the error "fake error" together. -/
def queryErrorClient : HTTPClient :=
  fakeHTTPClient (some (newFakeResponse pprofData none 200)) (some "fake error")

/-- Test case "HTTP response status not OK": status 403. -/
def forbiddenClient : HTTPClient :=
  fakeHTTPClient (some (newFakeResponse pprofData none 403)) none

/-- Test case "Writing to file error": status 200, the body fails with "fake error". -/
def writeErrorClient : HTTPClient :=
  fakeHTTPClient (some (newFakeResponse pprofData (some "fake error") 200)) none

/-- A client handing back, without error, a response with status 403 and a nil body. -/
def bodilessClient : HTTPClient :=
  fakeHTTPClient (some { StatusCode := 403, Body := none }) none

/-- A command double: fixed captured output and error, the disk left alone. -/
def fakeConnector (output : String) (err : Option String) : CmdWrapper :=
  { CmdExec := fun _ _ d => ((output, err), d) }

/-- The world in which every HTTP test case ends its request phase: one reading taken, the
request announced. -/
def worldRequested : World :=
  world0.tick.info ("Requesting CRIO profiling from " ++ httpURL)

end handlers

namespace handlers

/-! ## Basic facts -/

theorem httpURL_eq :
    URL.String { Scheme := "http"
                 Host := JoinHostPort defaultCrioProfileHost defaultCrioProfilePort
                 Path := crioProfilePath } = httpURL := by decide

theorem socketURL_eq :
    URL.String { Scheme := "http", Host := defaultCrioProfileHost, Path := crioProfilePath }
      = socketURL := by decide

/-- A string that starts with a non-empty string is not empty. -/
theorem append_ne_empty (a b : String) (ha : a ≠ "") : a ++ b ≠ "" := by
  intro hab
  have hlen : (a ++ b).length = 0 := by rw [hab]; rfl
  rw [String.length_append] at hlen
  have ha0 : a.length = 0 := by omega
  apply ha
  cases a with
  | mk l =>
    have : l = [] := List.length_eq_zero.mp ha0
    subst this
    rfl

/-- Outcome of `profileCrioViaHTTP` when `Get` reports an error. -/
theorem http_of_transport_error (now : Clock) (sink : FileSink) (h : Handlers) (uid : String)
    (client : HTTPClient) (w : World) (r : Option Response) (e : String)
    (hget : client.Get httpURL = (r, some e)) :
    profileCrioViaHTTP now sink h uid client w =
      some ({ Type_ := CrioRun, BeginTime := now w.reads, EndTime := now (w.reads + 1),
              Successful := false,
              Error := "failed sending profiling request to crio: " ++ e },
            (w.tick.info ("Requesting CRIO profiling from " ++ httpURL)).tick) := by
  unfold profileCrioViaHTTP
  simp only [httpURL_eq, hget]
  rfl

/-- Outcome of `profileCrioViaHTTP` when `Get` hands back nothing at all. -/
theorem http_of_nil_nil (now : Clock) (sink : FileSink) (h : Handlers) (uid : String)
    (client : HTTPClient) (w : World) (hget : client.Get httpURL = (none, none)) :
    profileCrioViaHTTP now sink h uid client w = none := by
  unfold profileCrioViaHTTP
  simp only [httpURL_eq, hget]

/-- Outcome of `profileCrioViaHTTP` when `Get` hands back, without error, a response whose
body is nil. -/
theorem http_of_nil_body (now : Clock) (sink : FileSink) (h : Handlers) (uid : String)
    (client : HTTPClient) (w : World) (resp : Response)
    (hget : client.Get httpURL = (some resp, none)) (hbody : resp.Body = none) :
    profileCrioViaHTTP now sink h uid client w = none := by
  unfold profileCrioViaHTTP
  simp only [httpURL_eq, hget, hbody]

/-- Outcome of `profileCrioViaHTTP` on a status other than 200. -/
theorem http_of_status_error (now : Clock) (sink : FileSink) (h : Handlers) (uid : String)
    (client : HTTPClient) (w : World) (resp : Response) (body : Body)
    (hget : client.Get httpURL = (some resp, none)) (hbody : resp.Body = some body)
    (hcode : resp.StatusCode ≠ 200) :
    profileCrioViaHTTP now sink h uid client w =
      some ({ Type_ := CrioRun, BeginTime := now w.reads, EndTime := now (w.reads + 1),
              Successful := false,
              Error := "error status code received from crio: " ++ formatInt resp.StatusCode },
            (w.tick.info ("Requesting CRIO profiling from " ++ httpURL)).tick.closeBody) := by
  unfold profileCrioViaHTTP
  simp only [httpURL_eq, hget, hbody, StatusOK]
  rw [if_pos hcode]
  rfl

/-- Outcome of `profileCrioViaHTTP` when the sink reports an error. -/
theorem http_of_sink_error (now : Clock) (sink : FileSink) (h : Handlers) (uid : String)
    (client : HTTPClient) (w : World) (resp : Response) (body : Body) (e : String)
    (hget : client.Get httpURL = (some resp, none)) (hbody : resp.Body = some body)
    (hcode : resp.StatusCode = 200)
    (hsink : (sink body (crioPprofOutputFilePath h uid) w.disk).1 = some e) :
    profileCrioViaHTTP now sink h uid client w =
      some ({ Type_ := CrioRun, BeginTime := now w.reads, EndTime := now (w.reads + 1),
              Successful := false,
              Error := "failed writing crio profiling data into file: " ++ e },
            ({ w.tick.info ("Requesting CRIO profiling from " ++ httpURL) with
                disk := (sink body (crioPprofOutputFilePath h uid) w.disk).2 }
              : World).tick.closeBody) := by
  have hdisk : (w.tick.info ("Requesting CRIO profiling from " ++ httpURL)).disk = w.disk := rfl
  unfold profileCrioViaHTTP
  simp only [httpURL_eq, hget, hbody, StatusOK, hcode, ne_eq, not_true_eq_false, if_false,
    hdisk, hsink]
  rfl

/-- Outcome of `profileCrioViaHTTP` when the sink reports no error. -/
theorem http_of_success (now : Clock) (sink : FileSink) (h : Handlers) (uid : String)
    (client : HTTPClient) (w : World) (resp : Response) (body : Body)
    (hget : client.Get httpURL = (some resp, none)) (hbody : resp.Body = some body)
    (hcode : resp.StatusCode = 200)
    (hsink : (sink body (crioPprofOutputFilePath h uid) w.disk).1 = none) :
    profileCrioViaHTTP now sink h uid client w =
      some ({ Type_ := CrioRun, BeginTime := now w.reads, EndTime := now (w.reads + 1),
              Successful := true, Error := "" },
            ((({ w.tick.info ("Requesting CRIO profiling from " ++ httpURL) with
                disk := (sink body (crioPprofOutputFilePath h uid) w.disk).2 }
              : World).tick.info
                "CRIO profiling request via HTTP successfully finished").closeBody)) := by
  have hdisk : (w.tick.info ("Requesting CRIO profiling from " ++ httpURL)).disk = w.disk := rfl
  unfold profileCrioViaHTTP
  simp only [httpURL_eq, hget, hbody, StatusOK, hcode, ne_eq, not_true_eq_false, if_false,
    hdisk, hsink]
  rfl

/-- Outcome of `profileCrioViaUnixSocket` when the command reports an error. -/
theorem socket_of_error (now : Clock) (h : Handlers) (uid : String) (cmd : CmdWrapper)
    (w : World) (o e : String)
    (hexec : (cmd.CmdExec "curl" (curlArgs h uid) w.disk).1 = (o, some e)) :
    (profileCrioViaUnixSocket now h uid cmd w).1 =
      { Type_ := CrioRun, BeginTime := now w.reads, EndTime := now (w.reads + 1),
        Successful := false, Error := "error sending profiling request to crio: " ++ o } := by
  have hdisk : ∀ line, (w.tick.info line).disk = w.disk := fun _ => rfl
  unfold profileCrioViaUnixSocket
  simp only [curlArgs] at hexec
  simp only [socketURL_eq, hdisk, hexec]
  rfl

/-- Outcome of `profileCrioViaUnixSocket` when the command reports no error. -/
theorem socket_of_success (now : Clock) (h : Handlers) (uid : String) (cmd : CmdWrapper)
    (w : World) (o : String)
    (hexec : (cmd.CmdExec "curl" (curlArgs h uid) w.disk).1 = (o, none)) :
    (profileCrioViaUnixSocket now h uid cmd w).1 =
      { Type_ := CrioRun, BeginTime := now w.reads, EndTime := now (w.reads + 1),
        Successful := true, Error := "" } := by
  have hdisk : ∀ line, (w.tick.info line).disk = w.disk := fun _ => rfl
  unfold profileCrioViaUnixSocket
  simp only [curlArgs] at hexec
  simp only [socketURL_eq, hdisk, hexec]
  rfl

/-- Every record returned by `profileCrioViaHTTP` carries the two clock readings taken by the
invocation and is either a success without error text or a failure with error text. -/
theorem http_run_shape (now : Clock) (sink : FileSink) (h : Handlers) (uid : String)
    (client : HTTPClient) (w w' : World) (run : ProfilingRun)
    (hret : profileCrioViaHTTP now sink h uid client w = some (run, w')) :
    run.BeginTime = now w.reads ∧ run.EndTime = now (w.reads + 1) ∧
      ((run.Successful = true ∧ run.Error = "") ∨
        (run.Successful = false ∧ run.Error ≠ "")) := by
  rcases hg : client.Get httpURL with ⟨r, e⟩
  cases e with
  | some e =>
    rw [http_of_transport_error now sink h uid client w r e hg] at hret
    simp only [Option.some.injEq, Prod.mk.injEq] at hret
    obtain ⟨rfl, -⟩ := hret
    exact ⟨rfl, rfl, Or.inr ⟨rfl, append_ne_empty _ _ (by decide)⟩⟩
  | none =>
    cases r with
    | none =>
      rw [http_of_nil_nil now sink h uid client w hg] at hret
      cases hret
    | some resp =>
      cases hb : resp.Body with
      | none =>
        rw [http_of_nil_body now sink h uid client w resp hg hb] at hret
        cases hret
      | some body =>
        by_cases hc : resp.StatusCode = 200
        · rcases hs : (sink body (crioPprofOutputFilePath h uid) w.disk).1 with _ | err
          · rw [http_of_success now sink h uid client w resp body hg hb hc hs] at hret
            simp only [Option.some.injEq, Prod.mk.injEq] at hret
            obtain ⟨rfl, -⟩ := hret
            exact ⟨rfl, rfl, Or.inl ⟨rfl, rfl⟩⟩
          · rw [http_of_sink_error now sink h uid client w resp body err hg hb hc hs] at hret
            simp only [Option.some.injEq, Prod.mk.injEq] at hret
            obtain ⟨rfl, -⟩ := hret
            exact ⟨rfl, rfl, Or.inr ⟨rfl, append_ne_empty _ _ (by decide)⟩⟩
        · rw [http_of_status_error now sink h uid client w resp body hg hb hc] at hret
          simp only [Option.some.injEq, Prod.mk.injEq] at hret
          obtain ⟨rfl, -⟩ := hret
          exact ⟨rfl, rfl, Or.inr ⟨rfl, append_ne_empty _ _ (by decide)⟩⟩

/-- The record returned by `profileCrioViaUnixSocket` carries the two clock readings taken by
the invocation and is either a success without error text or a failure with error text. -/
theorem socket_run_shape (now : Clock) (h : Handlers) (uid : String) (cmd : CmdWrapper)
    (w : World) :
    (profileCrioViaUnixSocket now h uid cmd w).1.BeginTime = now w.reads ∧
      (profileCrioViaUnixSocket now h uid cmd w).1.EndTime = now (w.reads + 1) ∧
      (((profileCrioViaUnixSocket now h uid cmd w).1.Successful = true ∧
          (profileCrioViaUnixSocket now h uid cmd w).1.Error = "") ∨
        ((profileCrioViaUnixSocket now h uid cmd w).1.Successful = false ∧
          (profileCrioViaUnixSocket now h uid cmd w).1.Error ≠ "")) := by
  rcases hx : (cmd.CmdExec "curl" (curlArgs h uid) w.disk).1 with ⟨o, e⟩
  cases e with
  | some e =>
    rw [socket_of_error now h uid cmd w o e hx]
    exact ⟨rfl, rfl, Or.inr ⟨rfl, append_ne_empty _ _ (by decide)⟩⟩
  | none =>
    rw [socket_of_success now h uid cmd w o hx]
    exact ⟨rfl, rfl, Or.inl ⟨rfl, rfl⟩⟩

/-- Totality: `profileCrioViaHTTP` returns a record as soon as `Get` hands back an error, or a
response that has a body. -/
theorem http_returns (now : Clock) (sink : FileSink) (h : Handlers) (uid : String)
    (client : HTTPClient) (w : World) (r : Option Response) (e : Option String)
    (hget : client.Get httpURL = (r, e))
    (hback : e.isSome = true ∨ ∃ resp body, r = some resp ∧ resp.Body = some body) :
    ∃ run w', profileCrioViaHTTP now sink h uid client w = some (run, w') := by
  cases e with
  | some e => exact ⟨_, _, http_of_transport_error now sink h uid client w r e hget⟩
  | none =>
    rcases hback with hsome | ⟨resp, body, rfl, hb⟩
    · simp at hsome
    · by_cases hc : resp.StatusCode = 200
      · rcases hs : (sink body (crioPprofOutputFilePath h uid) w.disk).1 with _ | err
        · exact ⟨_, _, http_of_success now sink h uid client w resp body hget hb hc hs⟩
        · exact ⟨_, _, http_of_sink_error now sink h uid client w resp body err hget hb hc hs⟩
      · exact ⟨_, _, http_of_status_error now sink h uid client w resp body hget hb hc⟩

/-! ## Decimal rendering -/

/-- The digit character of a number below ten has that number as its value. -/
theorem digitValue_digitChar (k : Nat) (hk : k < 10) :
    digitValue (Nat.digitChar k) = some k := by
  interval_cases k <;> decide

/-- The digit character of a number from one to nine is neither the zero digit nor the minus
sign. -/
theorem digitChar_ne_zero_minus (k : Nat) (hpos : 0 < k) (hk : k < 10) :
    Nat.digitChar k ≠ '0' ∧ Nat.digitChar k ≠ '-' := by
  interval_cases k <;> decide

/-- Reading back the digits produced for `n` in front of `ds` is reading `ds` onto `n`. -/
theorem readDigitsFrom_toDigitsCore (fuel : Nat) :
    ∀ (n : Nat) (ds : List Char), n < fuel →
      readDigitsFrom 0 (Nat.toDigitsCore 10 fuel n ds) = readDigitsFrom n ds := by
  induction fuel with
  | zero => intro n ds hn; omega
  | succ fuel ih =>
    intro n ds hn
    unfold Nat.toDigitsCore
    by_cases h0 : n / 10 = 0
    · simp only [h0, if_true]
      have hlt : n < 10 := by omega
      have hmod : n % 10 = n := Nat.mod_eq_of_lt hlt
      rw [hmod]
      simp only [readDigitsFrom, digitValue_digitChar n hlt]
      simp
    · simp only [h0, if_false]
      rw [ih (n / 10) _ (by omega)]
      simp only [readDigitsFrom, digitValue_digitChar (n % 10) (Nat.mod_lt _ (by decide))]
      congr 1
      omega

/-- The digits produced for a positive number start with a digit from one to nine. -/
theorem head_toDigitsCore (fuel : Nat) :
    ∀ (n : Nat) (ds : List Char), n < fuel → n ≠ 0 →
      ∃ k, 0 < k ∧ k < 10 ∧
        (Nat.toDigitsCore 10 fuel n ds).head? = some (Nat.digitChar k) := by
  induction fuel with
  | zero => intro n ds hn; omega
  | succ fuel ih =>
    intro n ds hn hne
    unfold Nat.toDigitsCore
    by_cases h0 : n / 10 = 0
    · simp only [h0, if_true]
      have hlt : n < 10 := by omega
      exact ⟨n, by omega, hlt, by rw [Nat.mod_eq_of_lt hlt]; rfl⟩
    · simp only [h0, if_false]
      exact ih (n / 10) _ (by omega) h0

/-- The decimal digits of a natural number read back as that number and do not start with a
minus sign. -/
theorem readNat_toDigits (n : Nat) : readNat (Nat.toDigits 10 n) = some n ∧
    (Nat.toDigits 10 n).head? ≠ some '-' := by
  by_cases hn : n = 0
  · subst hn
    decide
  · obtain ⟨k, hpos, hk, hhead⟩ := head_toDigitsCore (n + 1) n [] (by omega) hn
    have hne := digitChar_ne_zero_minus k hpos hk
    have hhead' : (Nat.toDigits 10 n).head? = some (Nat.digitChar k) := hhead
    have hread : readDigitsFrom 0 (Nat.toDigits 10 n) = some n := by
      have := readDigitsFrom_toDigitsCore (n + 1) n [] (by omega)
      simpa [Nat.toDigits, readDigitsFrom] using this
    refine ⟨?_, ?_⟩
    · unfold readNat
      have hnil : Nat.toDigits 10 n ≠ [] := by
        intro h
        rw [h] at hhead'
        simp at hhead'
      simp only [hnil, if_false, hhead', Option.some.injEq, hne.1, false_and, hread]
    · rw [hhead']
      simp only [ne_eq, Option.some.injEq]
      exact hne.2

/-- The decimal reader accepts the usual writing and refuses a leading zero, a signed zero, a
plus sign, a blank, a letter and the empty text. -/
theorem readDecimal_examples :
    readDecimal "403" = some 403 ∧ readDecimal "-403" = some (-403) ∧
      readDecimal "0" = some 0 ∧ readDecimal "0403" = none ∧ readDecimal "-0" = none ∧
      readDecimal "+403" = none ∧ readDecimal " 403" = none ∧ readDecimal "4a3" = none ∧
      readDecimal "" = none ∧ readDecimal "-" = none := by decide

/-- Decimal rendering: the text `formatInt` gives is the decimal writing of the integer: reading it back as a
decimal number gives the integer. -/
theorem readDecimal_formatInt (c : Int) : readDecimal (formatInt c) = some c := by
  cases c with
  | ofNat n =>
    have h := readNat_toDigits n
    have hdata : (formatInt (Int.ofNat n)).data = Nat.toDigits 10 n := rfl
    unfold readDecimal
    rw [hdata]
    simp only [h.2, if_false, h.1]
    rfl
  | negSucc m =>
    have h := readNat_toDigits (m + 1)
    have hdata : (formatInt (Int.negSucc m)).data = '-' :: Nat.toDigits 10 (m + 1) := rfl
    unfold readDecimal
    rw [hdata]
    simp only [List.head?_cons, List.tail_cons, if_true, h.1]
    rfl

/-! ## The file sink -/

/-- When the sink reports no error the reader had none and the file holds all its bytes. -/
theorem writeToFile_ok (reader : Body) (fileName : String) (d : Disk)
    (hok : (writeToFile reader fileName d).1 = none) :
    reader.err = none ∧ (writeToFile reader fileName d).2.files fileName = some reader.data := by
  unfold writeToFile at hok ⊢
  cases hf : d.fault fileName with
  | none =>
    simp only [hf] at hok ⊢
    refine ⟨by simpa using hok, ?_⟩
    simp [Disk.store]
  | some f =>
    cases f with
    | create cause => simp [hf] at hok
    | write n cause =>
      simp only [hf] at hok ⊢
      by_cases hn : n < reader.data.length
      · simp [hn] at hok
      · simp only [hn, if_false] at hok ⊢
        refine ⟨by simpa using hok, ?_⟩
        simp [Disk.store]

/-- The sink reports no error exactly when the reader has none and the medium takes all the
bytes. -/
theorem writeToFile_ok_iff (reader : Body) (fileName : String) (d : Disk) :
    (writeToFile reader fileName d).1 = none ↔
      reader.err = none ∧ d.takes fileName reader.data.length = true := by
  unfold writeToFile Disk.takes
  cases hf : d.fault fileName with
  | none => simp
  | some f =>
    cases f with
    | create cause => simp
    | write n cause =>
      by_cases hn : n < reader.data.length
      · simp [hn]
      · simp [hn]; omega

/-- When the medium takes all the bytes and the reader then fails, the sink reports the
reader's failure wrapped with the target path. -/
theorem writeToFile_reader_error (reader : Body) (fileName : String) (d : Disk) (e : String)
    (herr : reader.err = some e) (htakes : d.takes fileName reader.data.length = true) :
    (writeToFile reader fileName d).1 = some (sinkError fileName e) := by
  unfold Disk.takes at htakes
  unfold writeToFile
  cases hf : d.fault fileName with
  | none => simp [herr]
  | some f =>
    cases f with
    | create cause => simp [hf] at htakes
    | write n cause =>
      simp only [hf, decide_eq_true_eq] at htakes
      have hn : ¬ n < reader.data.length := by omega
      simp [hn, herr]

/-! ## The claims -/

/-- C1: for every invocation of `profileCrioViaHTTP` and of `profileCrioViaUnixSocket` (any
uid, any outcome of the HTTP client, of the command and of the file sink) the returned record
has a non-empty `Error` if and only if `Successful` is false, and an empty `Error` if and only
if `Successful` is true. -/
theorem C1_error_text_iff_failure (now : Clock) (sink : FileSink) (h : Handlers) (uid : String)
    (client : HTTPClient) (cmd : CmdWrapper) (w w' : World) (run : ProfilingRun)
    (hret : profileCrioViaHTTP now sink h uid client w = some (run, w') ∨
      profileCrioViaUnixSocket now h uid cmd w = (run, w')) :
    (run.Error ≠ "" ↔ run.Successful = false) ∧ (run.Error = "" ↔ run.Successful = true) := by
  have hshape : (run.Successful = true ∧ run.Error = "") ∨
      (run.Successful = false ∧ run.Error ≠ "") := by
    rcases hret with hhttp | hsock
    · exact (http_run_shape now sink h uid client w w' run hhttp).2.2
    · have hs := (socket_run_shape now h uid cmd w).2.2
      rw [hsock] at hs
      exact hs
  rcases hshape with ⟨hs, he⟩ | ⟨hs, he⟩
  · simp [hs, he]
  · simp [hs, he]

/-- Witness of C1: the test case "HTTP response status not OK". -/
theorem C1_error_text_iff_failure_witness :
    profileCrioViaHTTP stepClock writeToFile (testHandlers "/tmp/d") "2" forbiddenClient world0
        = some ({ Type_ := CrioRun, BeginTime := 0, EndTime := 1, Successful := false,
                  Error := "error status code received from crio: 403" },
                worldRequested.tick.closeBody) ∧
      (("error status code received from crio: 403" ≠ "" ↔ false = false) ∧
        ("error status code received from crio: 403" = "" ↔ false = true)) :=
  ⟨rfl, C1_error_text_iff_failure stepClock writeToFile (testHandlers "/tmp/d") "2"
    forbiddenClient (fakeConnector "" none) world0 worldRequested.tick.closeBody
    { Type_ := CrioRun, BeginTime := 0, EndTime := 1, Successful := false,
      Error := "error status code received from crio: 403" } (Or.inl rfl)⟩

/-- C2: for every uid and every client whose `Get` returns status 200 with body bytes `b`, when
the file write succeeds, `profileCrioViaHTTP` leaves at `<outputDir>/crio-<uid>.pprof` a file
whose contents are exactly `b` and returns a record with `Successful = true` and
`Error = ""`. -/
theorem C2_success_persists_body (now : Clock) (h : Handlers) (uid : String)
    (client : HTTPClient) (w : World) (resp : Response) (body : Body) (b : Bytes)
    (hget : client.Get httpURL = (some resp, none)) (hcode : resp.StatusCode = 200)
    (hpresent : resp.Body = some body) (hbody : body.data = b)
    (hwrite : (writeToFile body (crioPprofOutputFilePath h uid) w.disk).1 = none) :
    ∃ run w', profileCrioViaHTTP now writeToFile h uid client w = some (run, w') ∧
      w'.disk.files (h.outputDir ++ "/crio-" ++ uid ++ ".pprof") = some b ∧
      run.Successful = true ∧ run.Error = "" := by
  refine ⟨_, _,
    http_of_success now writeToFile h uid client w resp body hget hpresent hcode hwrite, ?_,
    rfl, rfl⟩
  have hfile := (writeToFile_ok body (crioPprofOutputFilePath h uid) w.disk hwrite).2
  rw [hbody] at hfile
  exact hfile

/-- Witness of C2: the test case "Nominal" with uid "0". -/
theorem C2_success_persists_body_witness :
    (nominalClient.Get httpURL = (some (newFakeResponse pprofData none 200), none) ∧
      (newFakeResponse pprofData none 200).StatusCode = 200 ∧
      (newFakeResponse pprofData none 200).Body = some { data := pprofData, err := none } ∧
      (writeToFile { data := pprofData, err := none }
        (crioPprofOutputFilePath (testHandlers "/tmp/d") "0") world0.disk).1 = none) ∧
    ∃ run w', profileCrioViaHTTP stepClock writeToFile (testHandlers "/tmp/d") "0"
        nominalClient world0 = some (run, w') ∧
      w'.disk.files ("/tmp/d" ++ "/crio-" ++ "0" ++ ".pprof") = some pprofData ∧
      run.Successful = true ∧ run.Error = "" :=
  ⟨⟨rfl, rfl, rfl, rfl⟩,
    C2_success_persists_body stepClock (testHandlers "/tmp/d") "0" nominalClient world0
      (newFakeResponse pprofData none 200) { data := pprofData, err := none } pprofData
      rfl rfl rfl rfl rfl⟩

/-- C3: for every uid and every client whose `Get` returns an error `e`, whatever response
comes with it, `profileCrioViaHTTP` returns a record with `Successful = false` and `Error`
equal to "failed sending profiling request to crio: " followed by the text of `e`. -/
theorem C3_transport_error_text (now : Clock) (sink : FileSink) (h : Handlers) (uid : String)
    (client : HTTPClient) (w : World) (r : Option Response) (e : String)
    (hget : client.Get httpURL = (r, some e)) :
    ∃ run w', profileCrioViaHTTP now sink h uid client w = some (run, w') ∧
      run.Successful = false ∧
      run.Error = "failed sending profiling request to crio: " ++ e :=
  ⟨_, _, http_of_transport_error now sink h uid client w r e hget, rfl, rfl⟩

/-- Witness of C3: the test case "HTTP query error". -/
theorem C3_transport_error_text_witness :
    queryErrorClient.Get httpURL
        = (some (newFakeResponse pprofData none 200), some "fake error") ∧
    ∃ run w', profileCrioViaHTTP stepClock writeToFile (testHandlers "/tmp/d") "1"
        queryErrorClient world0 = some (run, w') ∧
      run.Successful = false ∧
      run.Error = "failed sending profiling request to crio: " ++ "fake error" :=
  ⟨rfl, C3_transport_error_text stepClock writeToFile (testHandlers "/tmp/d") "1"
    queryErrorClient world0 (some (newFakeResponse pprofData none 200)) "fake error" rfl⟩

/-- C4, as stated, fails on a client that hands back, without error, a response with status
403 whose body is nil: `profileCrioViaHTTP` panics at `defer resp.Body.Close()` and returns no
record at all. -/
theorem C4_counterexample_nil_body :
    bodilessClient.Get httpURL = (some { StatusCode := 403, Body := none }, none) ∧
      (403 : Int) ≠ 200 ∧
      profileCrioViaHTTP stepClock writeToFile (testHandlers "/tmp/d") "2" bodilessClient
        world0 = none :=
  ⟨rfl, by decide, rfl⟩

/-- C4, amended: for every uid and every client whose `Get` returns no error and a response
that has a body and status code `c`, for every `c` other than 200 (other 2xx codes included),
`profileCrioViaHTTP` returns a record with `Successful = false` and `Error` equal to
"error status code received from crio: " followed by `c` in decimal: a text that reads back as
the integer `c` (optional minus sign, digits only, no leading zero). -/
theorem C4_status_error_text (now : Clock) (sink : FileSink) (h : Handlers) (uid : String)
    (client : HTTPClient) (w : World) (resp : Response) (body : Body) (c : Int)
    (hget : client.Get httpURL = (some resp, none)) (hpresent : resp.Body = some body)
    (hstatus : resp.StatusCode = c) (hc : c ≠ 200) :
    ∃ run w' text, profileCrioViaHTTP now sink h uid client w = some (run, w') ∧
      run.Successful = false ∧
      run.Error = "error status code received from crio: " ++ text ∧
      readDecimal text = some c := by
  subst hstatus
  exact ⟨_, _, formatInt resp.StatusCode,
    http_of_status_error now sink h uid client w resp body hget hpresent hc, rfl, rfl,
    readDecimal_formatInt resp.StatusCode⟩

/-- Witness of the amended C4: the test case "HTTP response status not OK", status 403. -/
theorem C4_status_error_text_witness :
    (forbiddenClient.Get httpURL = (some (newFakeResponse pprofData none 403), none) ∧
      (newFakeResponse pprofData none 403).Body = some { data := pprofData, err := none } ∧
      (newFakeResponse pprofData none 403).StatusCode = 403 ∧ (403 : Int) ≠ 200 ∧
      profileCrioViaHTTP stepClock writeToFile (testHandlers "/tmp/d") "2" forbiddenClient
          world0
        = some ({ Type_ := CrioRun, BeginTime := 0, EndTime := 1, Successful := false,
                  Error := "error status code received from crio: 403" },
                worldRequested.tick.closeBody) ∧
      readDecimal "403" = some 403 ∧ readDecimal "500" = some 500) ∧
    ∃ run w' text, profileCrioViaHTTP stepClock writeToFile (testHandlers "/tmp/d") "2"
        forbiddenClient world0 = some (run, w') ∧
      run.Successful = false ∧
      run.Error = "error status code received from crio: " ++ text ∧
      readDecimal text = some 403 :=
  ⟨⟨rfl, rfl, rfl, by decide, rfl, by decide, by decide⟩,
    C4_status_error_text stepClock writeToFile (testHandlers "/tmp/d") "2" forbiddenClient
      world0 (newFakeResponse pprofData none 403) { data := pprofData, err := none } 403
      rfl rfl rfl (by decide)⟩

/-- C5: for every uid and every client whose `Get` returns status 200 but whose body fails with
cause `e` while it is drained to the file, `profileCrioViaHTTP` returns a record with
`Successful = false` and `Error` equal to "failed writing crio profiling data into file: "
followed by the sink's context naming the target file, ": " and `e`, whatever bytes the body
delivered before failing. -/
theorem C5_body_failure_text (now : Clock) (h : Handlers) (uid : String)
    (client : HTTPClient) (w : World) (resp : Response) (body : Body) (e : String)
    (hget : client.Get httpURL = (some resp, none)) (hcode : resp.StatusCode = 200)
    (hpresent : resp.Body = some body) (herr : body.err = some e)
    (hdrain : w.disk.takes (crioPprofOutputFilePath h uid) body.data.length = true) :
    ∃ run w', profileCrioViaHTTP now writeToFile h uid client w = some (run, w') ∧
      run.Successful = false ∧
      run.Error = "failed writing crio profiling data into file: " ++
        ("failed to write to file " ++ crioPprofOutputFilePath h uid ++ ": " ++ e) :=
  ⟨_, _, http_of_sink_error now writeToFile h uid client w resp body _ hget hpresent hcode
    (writeToFile_reader_error body (crioPprofOutputFilePath h uid) w.disk e herr hdrain),
    rfl, rfl⟩

/-- Witness of C5: the test case "Writing to file error" with uid "3". -/
theorem C5_body_failure_text_witness :
    (writeErrorClient.Get httpURL
        = (some (newFakeResponse pprofData (some "fake error") 200), none) ∧
      (newFakeResponse pprofData (some "fake error") 200).StatusCode = 200 ∧
      (newFakeResponse pprofData (some "fake error") 200).Body
        = some { data := [], err := some "fake error" } ∧
      world0.disk.takes (crioPprofOutputFilePath (testHandlers "/tmp/d") "3")
        ([] : Bytes).length = true ∧
      "failed writing crio profiling data into file: " ++
        ("failed to write to file " ++ crioPprofOutputFilePath (testHandlers "/tmp/d") "3"
          ++ ": " ++ "fake error")
        = "failed writing crio profiling data into file: failed to write to file /tmp/d/crio-3.pprof: fake error") ∧
    ∃ run w', profileCrioViaHTTP stepClock writeToFile (testHandlers "/tmp/d") "3"
        writeErrorClient world0 = some (run, w') ∧
      run.Successful = false ∧
      run.Error = "failed writing crio profiling data into file: " ++
        ("failed to write to file " ++ crioPprofOutputFilePath (testHandlers "/tmp/d") "3"
          ++ ": " ++ "fake error") :=
  ⟨⟨rfl, rfl, rfl, rfl, by decide⟩,
    C5_body_failure_text stepClock (testHandlers "/tmp/d") "3" writeErrorClient world0
      (newFakeResponse pprofData (some "fake error") 200)
      { data := [], err := some "fake error" } "fake error" rfl rfl rfl rfl rfl⟩

/-- C6: for every uid and every command-execution capability, when `CmdExec` reports an error
with captured output `o`, `profileCrioViaUnixSocket` returns a record with `Successful = false`
whose `Error` contains `o` (it is "error sending profiling request to crio: " followed by `o`);
when `CmdExec` reports no error, the record has `Successful = true` and `Error = ""`. -/
theorem C6_command_outcome (now : Clock) (h : Handlers) (uid : String) (cmd : CmdWrapper)
    (w : World) (o : String) (err : Option String)
    (hexec : (cmd.CmdExec "curl" (curlArgs h uid) w.disk).1 = (o, err)) :
    (err ≠ none →
      (profileCrioViaUnixSocket now h uid cmd w).1.Successful = false ∧
      o.data <:+: (profileCrioViaUnixSocket now h uid cmd w).1.Error.data ∧
      (profileCrioViaUnixSocket now h uid cmd w).1.Error
        = "error sending profiling request to crio: " ++ o) ∧
    (err = none →
      (profileCrioViaUnixSocket now h uid cmd w).1.Successful = true ∧
      (profileCrioViaUnixSocket now h uid cmd w).1.Error = "") := by
  cases err with
  | none =>
    rw [socket_of_success now h uid cmd w o hexec]
    exact ⟨fun hne => absurd rfl hne, fun _ => ⟨rfl, rfl⟩⟩
  | some e =>
    rw [socket_of_error now h uid cmd w o e hexec]
    refine ⟨fun _ => ⟨rfl, ?_, rfl⟩, fun hnone => by cases hnone⟩
    exact ⟨"error sending profiling request to crio: ".data, [], by simp⟩

/-- Witness of C6: a curl that cannot reach the socket, and a curl that ends well. -/
theorem C6_command_outcome_witness :
    (((fakeConnector "curl: (7) Failed to connect to server" (some "exit status 7")).CmdExec
        "curl" (curlArgs (testHandlers "/tmp") "1234") world0.disk).1
      = ("curl: (7) Failed to connect to server", some "exit status 7") ∧
      (profileCrioViaUnixSocket stepClock (testHandlers "/tmp") "1234"
        (fakeConnector "curl: (7) Failed to connect to server" (some "exit status 7"))
        world0).1.Error
        = "error sending profiling request to crio: curl: (7) Failed to connect to server" ∧
      (profileCrioViaUnixSocket stepClock (testHandlers "/tmp") "1234"
        (fakeConnector "curl: (7) Failed to connect to server" (some "exit status 7"))
        world0).1.Successful = false) ∧
    (((fakeConnector "" none).CmdExec "curl" (curlArgs (testHandlers "/tmp") "1234")
        world0.disk).1 = ("", none) ∧
      (profileCrioViaUnixSocket stepClock (testHandlers "/tmp") "1234" (fakeConnector "" none)
        world0).1.Successful = true ∧
      (profileCrioViaUnixSocket stepClock (testHandlers "/tmp") "1234" (fakeConnector "" none)
        world0).1.Error = "") :=
  ⟨⟨rfl,
    ((C6_command_outcome stepClock (testHandlers "/tmp") "1234"
      (fakeConnector "curl: (7) Failed to connect to server" (some "exit status 7")) world0
      "curl: (7) Failed to connect to server" (some "exit status 7") rfl).1
        (by simp)).2.2,
    ((C6_command_outcome stepClock (testHandlers "/tmp") "1234"
      (fakeConnector "curl: (7) Failed to connect to server" (some "exit status 7")) world0
      "curl: (7) Failed to connect to server" (some "exit status 7") rfl).1
        (by simp)).1⟩,
    rfl,
    (C6_command_outcome stepClock (testHandlers "/tmp") "1234" (fakeConnector "" none) world0
      "" none rfl).2 rfl⟩

/-- C7, as stated, fails on the test case "HTTP query error": `Get` hands back a response with
a body together with the error "fake error"; `profileCrioViaHTTP` returns the failure record
and the body has received no `Close` call (none before the call, none after). -/
theorem C7_counterexample_body_left_open :
    queryErrorClient.Get httpURL
        = (some (newFakeResponse pprofData none 200), some "fake error") ∧
      world0.closes = 0 ∧
      profileCrioViaHTTP stepClock writeToFile (testHandlers "/tmp/d") "1" queryErrorClient
          world0
        = some ({ Type_ := CrioRun, BeginTime := 0, EndTime := 1, Successful := false,
                  Error := "failed sending profiling request to crio: fake error" },
                worldRequested.tick) ∧
      worldRequested.tick.closes = 0 :=
  ⟨rfl, rfl, rfl, rfl⟩

/-- C7, amended: whenever `client.Get` hands back an error, or without error a response that
has a body, `profileCrioViaHTTP` returns; when `Get` reported no error the body of the response
has been closed exactly once by the time the function returns, on each of the three exits
(status other than 200, sink failure, success); when `Get` reported an error the function
returns without any `Close` call, whatever response came with the error. -/
theorem C7_body_closed_unless_transport_error (now : Clock) (sink : FileSink) (h : Handlers)
    (uid : String) (client : HTTPClient) (w : World) (r : Option Response) (e : Option String)
    (hget : client.Get httpURL = (r, e))
    (hback : e.isSome = true ∨ ∃ resp body, r = some resp ∧ resp.Body = some body) :
    ∃ run w', profileCrioViaHTTP now sink h uid client w = some (run, w') ∧
      w'.closes = if e.isSome = true then w.closes else w.closes + 1 := by
  cases e with
  | some e => exact ⟨_, _, http_of_transport_error now sink h uid client w r e hget, rfl⟩
  | none =>
    rcases hback with hsome | ⟨resp, body, rfl, hb⟩
    · simp at hsome
    · by_cases hc : resp.StatusCode = 200
      · rcases hs : (sink body (crioPprofOutputFilePath h uid) w.disk).1 with _ | err
        · exact ⟨_, _, http_of_success now sink h uid client w resp body hget hb hc hs, rfl⟩
        · exact ⟨_, _, http_of_sink_error now sink h uid client w resp body err hget hb hc hs,
            rfl⟩
      · exact ⟨_, _, http_of_status_error now sink h uid client w resp body hget hb hc, rfl⟩

/-- Witness of the amended C7: the test case "HTTP response status not OK"; the body is closed
once on the early return. -/
theorem C7_body_closed_unless_transport_error_witness :
    (forbiddenClient.Get httpURL = (some (newFakeResponse pprofData none 403), none) ∧
      (newFakeResponse pprofData none 403).Body = some { data := pprofData, err := none }) ∧
    ∃ run w', profileCrioViaHTTP stepClock writeToFile (testHandlers "/tmp/d") "2"
        forbiddenClient world0 = some (run, w') ∧
      w'.closes = if (none : Option String).isSome = true then world0.closes
        else world0.closes + 1 :=
  ⟨⟨rfl, rfl⟩,
    C7_body_closed_unless_transport_error stepClock writeToFile (testHandlers "/tmp/d") "2"
      forbiddenClient world0 (some (newFakeResponse pprofData none 403)) none rfl
      (Or.inr ⟨_, _, rfl, rfl⟩)⟩

/-- C8: `profileCrioViaHTTP` invokes the file sink only when `client.Get` returns no error and
the status code is 200: on every transport error and on every status code other than 200 the
outcome is the same whatever the sink is, the disk after a return is the disk before the call,
and the function does return, with that unchanged disk, unless a response without error has a
nil body. -/
theorem C8_no_write_on_early_return (now : Clock) (sink : FileSink) (h : Handlers)
    (uid : String) (client : HTTPClient) (w : World)
    (hearly : (∃ r e, client.Get httpURL = (r, some e)) ∨
      (∃ resp, client.Get httpURL = (some resp, none) ∧ resp.StatusCode ≠ 200)) :
    (∀ other : FileSink, profileCrioViaHTTP now other h uid client w
        = profileCrioViaHTTP now sink h uid client w) ∧
      (∀ run w', profileCrioViaHTTP now sink h uid client w = some (run, w') →
        w'.disk = w.disk) ∧
      ((∀ resp, client.Get httpURL = (some resp, none) → resp.Body ≠ none) →
        ∃ run w', profileCrioViaHTTP now sink h uid client w = some (run, w') ∧
          w'.disk = w.disk ∧
          ∀ other : FileSink,
            profileCrioViaHTTP now other h uid client w = some (run, w')) := by
  rcases hearly with ⟨r, e, hget⟩ | ⟨resp, hget, hc⟩
  · have hres := fun s : FileSink => http_of_transport_error now s h uid client w r e hget
    refine ⟨fun other => by rw [hres other, hres sink], ?_, fun _ => ⟨_, _, hres sink, rfl,
      hres⟩⟩
    intro run w' hret
    rw [hres sink] at hret
    simp only [Option.some.injEq, Prod.mk.injEq] at hret
    obtain ⟨-, rfl⟩ := hret
    rfl
  · cases hb : resp.Body with
    | none =>
      have hres := fun s : FileSink => http_of_nil_body now s h uid client w resp hget hb
      refine ⟨fun other => by rw [hres other, hres sink], ?_, fun hall =>
        absurd hb (hall resp hget)⟩
      intro run w' hret
      rw [hres sink] at hret
      cases hret
    | some body =>
      have hres := fun s : FileSink =>
        http_of_status_error now s h uid client w resp body hget hb hc
      refine ⟨fun other => by rw [hres other, hres sink], ?_, fun _ => ⟨_, _, hres sink, rfl,
        hres⟩⟩
      intro run w' hret
      rw [hres sink] at hret
      simp only [Option.some.injEq, Prod.mk.injEq] at hret
      obtain ⟨-, rfl⟩ := hret
      rfl

/-- Witness of C8: the test case "HTTP query error". -/
theorem C8_no_write_on_early_return_witness :
    ((∃ r e, queryErrorClient.Get httpURL = (r, some e)) ∨
      (∃ resp, queryErrorClient.Get httpURL = (some resp, none) ∧ resp.StatusCode ≠ 200)) ∧
    ∃ run w', profileCrioViaHTTP stepClock writeToFile (testHandlers "/tmp/d") "1"
        queryErrorClient world0 = some (run, w') ∧
      w'.disk = world0.disk ∧
      ∀ other : FileSink, profileCrioViaHTTP stepClock other (testHandlers "/tmp/d") "1"
        queryErrorClient world0 = some (run, w') :=
  ⟨Or.inl ⟨_, _, rfl⟩,
    (C8_no_write_on_early_return stepClock writeToFile (testHandlers "/tmp/d") "1"
      queryErrorClient world0 (Or.inl ⟨_, _, rfl⟩)).2.2
      (fun resp hget => by
        have hresp : some (newFakeResponse pprofData none 200) = some resp :=
          congrArg Prod.fst hget
        cases hresp
        simp [newFakeResponse])⟩

/-- C9: for every output directory and every two different identifiers `a` and `b`, the paths
`<d>/crio-<a>.pprof` and `<d>/crio-<b>.pprof` given by `crioPprofOutputFilePath` are
different. -/
theorem C9_distinct_ids_distinct_paths (h : Handlers) (a b : String) (hab : a ≠ b) :
    crioPprofOutputFilePath h a ≠ crioPprofOutputFilePath h b := by
  intro heq
  apply hab
  unfold crioPprofOutputFilePath at heq
  have hdata := congrArg String.data heq
  simp only [String.data_append, List.append_assoc, List.append_cancel_left_eq,
    List.append_cancel_right_eq] at hdata
  exact String.ext hdata

/-- Witness of C9: identifiers "0" and "1" under "/tmp/d". -/
theorem C9_distinct_ids_distinct_paths_witness :
    "0" ≠ "1" ∧
      crioPprofOutputFilePath (testHandlers "/tmp/d") "0"
        ≠ crioPprofOutputFilePath (testHandlers "/tmp/d") "1" :=
  ⟨by decide, C9_distinct_ids_distinct_paths (testHandlers "/tmp/d") "0" "1" (by decide)⟩

/-- C10: for every invocation of `profileCrioViaHTTP` and of `profileCrioViaUnixSocket`, on
every exit (success and each failure), given a clock whose successive readings do not
decrease, the returned record has `BeginTime` set to the reading taken at the start,
`EndTime` set to the reading taken when the record is finalised, and
`BeginTime ≤ EndTime`. -/
theorem C10_begin_le_end (now : Clock) (sink : FileSink) (h : Handlers) (uid : String)
    (client : HTTPClient) (cmd : CmdWrapper) (w w' : World) (run : ProfilingRun)
    (hclock : ∀ k, now k ≤ now (k + 1))
    (hret : profileCrioViaHTTP now sink h uid client w = some (run, w') ∨
      profileCrioViaUnixSocket now h uid cmd w = (run, w')) :
    run.BeginTime = now w.reads ∧ run.EndTime = now (w.reads + 1) ∧
      run.BeginTime ≤ run.EndTime := by
  have hshape : run.BeginTime = now w.reads ∧ run.EndTime = now (w.reads + 1) := by
    rcases hret with hhttp | hsock
    · have hs := http_run_shape now sink h uid client w w' run hhttp
      exact ⟨hs.1, hs.2.1⟩
    · have hs := socket_run_shape now h uid cmd w
      rw [hsock] at hs
      exact ⟨hs.1, hs.2.1⟩
  refine ⟨hshape.1, hshape.2, ?_⟩
  rw [hshape.1, hshape.2]
  exact hclock w.reads

/-- Witness of C10: the test case "HTTP query error" under a clock ticking once per
reading. -/
theorem C10_begin_le_end_witness :
    ((∀ k, stepClock k ≤ stepClock (k + 1)) ∧
      profileCrioViaHTTP stepClock writeToFile (testHandlers "/tmp/d") "1" queryErrorClient
          world0
        = some ({ Type_ := CrioRun, BeginTime := 0, EndTime := 1, Successful := false,
                  Error := "failed sending profiling request to crio: fake error" },
                worldRequested.tick)) ∧
    ((0 : Time) = stepClock world0.reads ∧ (1 : Time) = stepClock (world0.reads + 1) ∧
      (0 : Time) ≤ 1) :=
  ⟨⟨fun k => by simp [stepClock], rfl⟩,
    C10_begin_le_end stepClock writeToFile (testHandlers "/tmp/d") "1" queryErrorClient
      (fakeConnector "" none) world0 worldRequested.tick
      { Type_ := CrioRun, BeginTime := 0, EndTime := 1, Successful := false,
        Error := "failed sending profiling request to crio: fake error" }
      (fun k => by simp [stepClock]) (Or.inl rfl)⟩

end handlers
